import Mathlib

/-!
Shallow embedding of the simplified Pokemon TCG engine
(`poketcg/cards.py`, `poketcg/deck.py`, `poketcg/player.py`,
`poketcg/game.py`, `poketcg/card_data.py`).

Python exceptions are modelled with `Except GameError`; mutable state is
threaded explicitly (each method that mutates `self` returns the updated
value).  Python `int` is modelled as `Int`; list fields are Lean lists.
-/

namespace PokeTCG

/-- Errors raised by the engine (Python `ValueError` / `RuntimeError` /
`AttributeError` / `AssertionError`, distinguished by message). -/
inductive GameError where
  /-- `ValueError("n must be non-negative")` in `Deck.draw`. -/
  | invalidArgument : GameError
  /-- `RuntimeError("Cannot draw more cards than remaining in deck")`. -/
  | insufficientCards : GameError
  /-- `RuntimeError("No active pokemon to damage")`. -/
  | noActivePokemon : GameError
  /-- `RuntimeError(f"Player {name} has no Pokemon to start the game")`. -/
  | noStartingPokemon (name : String) : GameError
  /-- An out-of-range list index (Python `IndexError`); unreachable paths. -/
  | indexError : GameError
  /-- Attribute access on `None` (Python `AttributeError`); unreachable paths. -/
  | attributeError : GameError
  /-- A failed `assert` statement; unreachable paths. -/
  | assertionFailed : GameError
  /-- `ValueError("end must be greater than or equal to start")` in `fetch_range`. -/
  | rangeError : GameError
deriving DecidableEq, Repr

/-- Python `cards.Attack`: name, damage and optional reminder text. -/
structure Attack where
  name : String
  damage : Int
  text : Option String := none
deriving DecidableEq, Repr

/-- Python `cards.PokemonCard` (its fields beyond the base `Card` name). -/
structure PokemonCard where
  name : String
  hp : Int
  attacks : List Attack := []
  external_id : Option Int := none
deriving DecidableEq, Repr

/-- Python `cards.Card` and its variants (`PokemonCard`, `EnergyCard`, `TrainerCard`). -/
inductive Card where
  | pokemon (p : PokemonCard) : Card
  | energy (name : String) (energy_type : String) : Card
  | trainer (name : String) (text : String) : Card
deriving DecidableEq, Repr

/-- The `name` attribute shared by all card variants. -/
def Card.name : Card → String
  | .pokemon p => p.name
  | .energy n _ => n
  | .trainer n _ => n

/-- Python `isinstance(card, PokemonCard)`. -/
def Card.isPokemon : Card → Bool
  | .pokemon _ => true
  | _ => false

/-- Python `deck.Deck`: an ordered stack of cards. -/
structure Deck where
  cards : List Card
deriving DecidableEq, Repr

/-- Python `Deck.draw(n)`: removes and returns the first `n` cards.
Mirrors the source: reject negative `n`, return `[]` for `n = 0`,
fail when fewer than `n` cards remain, otherwise split the list. -/
def Deck.draw (d : Deck) (n : Int) : Except GameError (List Card × Deck) :=
  if n < 0 then .error .invalidArgument
  else if n = 0 then .ok ([], d)
  else if (d.cards.length : Int) < n then .error .insufficientCards
  else .ok (d.cards.take n.toNat, ⟨d.cards.drop n.toNat⟩)

/-- Python `Deck.copy()`: a deck with the same card sequence. -/
def Deck.copy (d : Deck) : Deck := ⟨d.cards⟩

/-- Python `player.Player`: mutable per-player board state. -/
structure Player where
  name : String
  deck : Deck
  hand : List Card := []
  discard_pile : List Card := []
  prizes : List Card := []
  active_pokemon : Option PokemonCard := none
  active_hp : Int := 0
deriving DecidableEq, Repr

/-- Python `Player.draw(n)`: draw from the deck and append to the hand. -/
def Player.draw (p : Player) (n : Int) : Except GameError (List Card × Player) := do
  let (cards, deck) ← p.deck.draw n
  pure (cards, { p with deck := deck, hand := p.hand ++ cards })

/-- Python `Player.setup_prizes(count)`: `self.prizes = self.deck.draw(count)`. -/
def Player.setup_prizes (p : Player) (count : Int) : Except GameError Player := do
  let (cards, deck) ← p.deck.draw count
  pure { p with deck := deck, prizes := cards }

/-- Python `Player.take_prize()`: pop the first prize into the hand, or `none`. -/
def Player.take_prize (p : Player) : Option Card × Player :=
  match p.prizes with
  | [] => (none, p)
  | c :: rest => (some c, { p with prizes := rest, hand := p.hand ++ [c] })

/-- Python `Player.has_pokemon_in_hand()`. -/
def Player.has_pokemon_in_hand (p : Player) : Bool :=
  p.hand.any Card.isPokemon

/-- Helper for `promote_from_hand`: find the first Pokemon card in the
hand, returning it together with the hand with that card removed
(Python scans with `enumerate` and uses `del self.hand[idx]`). -/
def promoteSplit : List Card → Option (PokemonCard × List Card)
  | [] => none
  | c :: rest =>
    match c with
    | .pokemon pk => some (pk, rest)
    | _ => (promoteSplit rest).map (fun x => (x.1, c :: x.2))

/-- Python `Player.promote_from_hand()`: promote the first Pokemon card in hand. -/
def Player.promote_from_hand (p : Player) : Bool × Player :=
  match promoteSplit p.hand with
  | none => (false, p)
  | some (pk, rest) =>
    (true, { p with hand := rest, active_pokemon := some pk, active_hp := pk.hp })

/-- Python `Player.damage_active(amount)`: `active_hp = max(active_hp - amount, 0)`,
returning whether the result is 0; error when there is no active Pokemon. -/
def Player.damage_active (p : Player) (amount : Int) :
    Except GameError (Bool × Player) :=
  match p.active_pokemon with
  | none => .error .noActivePokemon
  | some _ =>
    let hp := max (p.active_hp - amount) 0
    .ok (hp == 0, { p with active_hp := hp })

/-- Python `Player.discard_active()`: move the active Pokemon to the discard pile. -/
def Player.discard_active (p : Player) : Player :=
  match p.active_pokemon with
  | none => p
  | some pk =>
    { p with discard_pile := p.discard_pile ++ [Card.pokemon pk],
             active_pokemon := none, active_hp := 0 }

/-- Python `game.Turn`: the two-player turn enumeration. -/
inductive Turn where
  | playerOne : Turn
  | playerTwo : Turn
deriving DecidableEq, Repr

/-- Python `Turn.opposite()`. -/
def Turn.opposite : Turn → Turn
  | .playerOne => .playerTwo
  | .playerTwo => .playerOne

/-- Python `game.PlayerSnapshot`: immutable public view of a player. -/
structure PlayerSnapshot where
  name : String
  deck_size : Nat
  hand_size : Nat
  discard_size : Nat
  prizes_remaining : Nat
  active_name : Option String
  active_hp : Int
  active_external_id : Option Int
deriving DecidableEq, Repr

/-- Python `game.GameSnapshot`: the board after a key event.  The Python
`players` dict keyed by `Turn` is modelled as the two fields
`playerOneView` / `playerTwoView`. -/
structure GameSnapshot where
  active_turn : Turn
  turn_count : Nat
  description : String
  playerOneView : PlayerSnapshot
  playerTwoView : PlayerSnapshot
deriving DecidableEq, Repr

/-- Python `game.GameResult`. -/
structure GameResult where
  winner : Option Turn
  log : List String
  snapshots : List GameSnapshot
deriving DecidableEq, Repr

/-- Python `game.PokemonGame`: the match controller.  The Python `players` dict
is modelled as the two fields `player1` / `player2`; the `random.Random`
instance is modelled as an opaque-state counter `rng : Nat` consumed by a
shuffle oracle passed to `setup` / `play` (Python's PRNG is a
deterministic function of the seed and of how often it has been used). -/
structure PokemonGame where
  player1 : Player
  player2 : Player
  turn : Turn
  turn_count : Nat
  log : List String
  snapshots : List GameSnapshot
  rng : Nat
deriving DecidableEq, Repr

/-- A shuffle oracle: given an RNG state and a list, return the shuffled
list and the advanced RNG state (`random.Random.shuffle`). -/
def ShuffleFn : Type := Nat → List Card → List Card × Nat

/-- Python `PokemonGame.__init__(player_one, player_two, seed=...)`:
turn is player one, counters and histories empty. -/
def PokemonGame.init (p1 p2 : Player) (rngState : Nat) : PokemonGame :=
  { player1 := p1, player2 := p2, turn := .playerOne, turn_count := 0,
    log := [], snapshots := [], rng := rngState }

/-- Python `self.players[turn]`. -/
def PokemonGame.playerOf (g : PokemonGame) : Turn → Player
  | .playerOne => g.player1
  | .playerTwo => g.player2

/-- Assignment to the player stored under `turn`. -/
def PokemonGame.setPlayer (g : PokemonGame) : Turn → Player → PokemonGame
  | .playerOne, p => { g with player1 := p }
  | .playerTwo, p => { g with player2 := p }

/-- Python `self.log.append(line)`. -/
def PokemonGame.addLog (g : PokemonGame) (line : String) : PokemonGame :=
  { g with log := g.log ++ [line] }

/-- Python `PokemonGame._snapshot_player(player)`. -/
def snapshotPlayer (p : Player) : PlayerSnapshot :=
  { name := p.name
    deck_size := p.deck.cards.length
    hand_size := p.hand.length
    discard_size := p.discard_pile.length
    prizes_remaining := p.prizes.length
    active_name := p.active_pokemon.map PokemonCard.name
    active_hp := p.active_hp
    active_external_id :=
      match p.active_pokemon with
      | some pk => pk.external_id
      | none => none }

/-- Python `PokemonGame._record_snapshot(description, active_turn=...)`. -/
def PokemonGame.recordSnapshot (g : PokemonGame) (description : String)
    (active_turn : Option Turn) : PokemonGame :=
  { g with snapshots := g.snapshots ++
      [{ active_turn := active_turn.getD g.turn
         turn_count := g.turn_count
         description := description
         playerOneView := snapshotPlayer g.player1
         playerTwoView := snapshotPlayer g.player2 }] }

/-- Python `PokemonGame._setup_player(player)`: shuffle the deck, clear all
piles and the active slot, draw 7, set aside 6 prizes, promote a
Pokemon from hand (error when none is found).  Threads the RNG state. -/
def setupPlayer (shuffleFn : ShuffleFn) (rng : Nat) (player : Player) :
    Except GameError (Player × Nat) := do
  let shuffled := shuffleFn rng player.deck.cards
  let p : Player :=
    { player with deck := ⟨shuffled.1⟩, hand := [], discard_pile := [],
                  prizes := [], active_pokemon := none, active_hp := 0 }
  let (_, p) ← p.draw 7
  let p ← p.setup_prizes 6
  let (promoted, p) := p.promote_from_hand
  if promoted then pure (p, shuffled.2)
  else .error (.noStartingPokemon player.name)

/-- The log line `f"{name} opens with {pk.name} (HP {hp})."` from `setup`;
the Python `assert player.active_pokemon is not None` is modelled by the
caller erroring on `none`. -/
def openLine (p : Player) (pk : PokemonCard) : String :=
  p.name ++ " opens with " ++ pk.name ++ " (HP " ++ toString p.active_hp ++ ")."

/-- Python `PokemonGame.setup()`: set up both players (player one first), reset
turn state, write the setup log lines, clear the snapshot history and
record the "Setup complete" snapshot. -/
def PokemonGame.setup (shuffleFn : ShuffleFn) (g : PokemonGame) :
    Except GameError PokemonGame := do
  let (p1, rng) ← setupPlayer shuffleFn g.rng g.player1
  let (p2, rng) ← setupPlayer shuffleFn rng g.player2
  let g := { g with player1 := p1, player2 := p2, rng := rng,
                    turn := .playerOne, turn_count := 0 }
  let g := g.addLog "Game setup complete."
  let g ← match g.player1.active_pokemon with
    | some pk => pure (g.addLog (openLine g.player1 pk))
    | none => .error .assertionFailed
  let g ← match g.player2.active_pokemon with
    | some pk => pure (g.addLog (openLine g.player2 pk))
    | none => .error .assertionFailed
  let g := { g with snapshots := [] }
  pure (g.recordSnapshot "Setup complete" none)

/-- Python `PokemonGame._draw_phase(player, active_turn=...)`: returns `false`
(with the deck-out log line and "Deck out" snapshot) when the deck is
empty, otherwise draws one card and logs it. -/
def PokemonGame.drawPhase (g : PokemonGame) (active_turn : Turn) :
    Except GameError (Bool × PokemonGame) :=
  let player := g.playerOf active_turn
  if player.deck.cards.length = 0 then
    let g := g.addLog (player.name ++ " cannot draw and loses by deck out.")
    .ok (false, g.recordSnapshot "Deck out" (some active_turn))
  else do
    let (cards, p) ← player.draw 1
    match cards with
    | [] => .error .indexError
    | card :: _ =>
      let g := g.setPlayer active_turn p
      .ok (true, g.addLog (p.name ++ " draws " ++ card.name ++ "."))

/-- Python `PokemonGame._attack(attacker, defender)`: the attacker's active
Pokemon uses its first attack; on knockout the defender discards,
the attacker takes a prize, and the defender promotes from hand.
`atkT` is the attacker's key in the players dict. -/
def PokemonGame.attack (g : PokemonGame) (atkT : Turn) :
    Except GameError PokemonGame :=
  let attacker := g.playerOf atkT
  let defender := g.playerOf atkT.opposite
  match attacker.active_pokemon with
  | none =>
    .ok (g.addLog (attacker.name ++ " has no active Pokemon and loses the turn."))
  | some pk =>
    match pk.attacks with
    | [] => .ok (g.addLog (pk.name ++ " cannot attack."))
    | atk :: _ => do
      let g := g.addLog (attacker.name ++ "\x27s " ++ pk.name ++ " uses " ++
        atk.name ++ " for " ++ toString atk.damage ++ " damage.")
      let (knocked_out, defender) ← defender.damage_active atk.damage
      let g := g.setPlayer atkT.opposite defender
      if knocked_out then do
        let koName ← match defender.active_pokemon with
          | some dpk => pure dpk.name
          | none => .error .attributeError
        let g := g.addLog (defender.name ++ "\x27s " ++ koName ++ " is knocked out!")
        let defender := defender.discard_active
        let g := g.setPlayer atkT.opposite defender
        let (prize, attacker) := (g.playerOf atkT).take_prize
        let g := g.setPlayer atkT attacker
        let g := match prize with
          | some c => g.addLog (attacker.name ++ " takes a prize card: " ++
              c.name ++ ".")
          | none => g
        let g := if attacker.prizes.isEmpty then
            g.addLog (attacker.name ++ " takes the final prize and wins!")
          else g
        let (promoted, defender) := defender.promote_from_hand
        let g := g.setPlayer atkT.opposite defender
        let g := if promoted then g else
          g.addLog (defender.name ++ " has no replacement Pokemon and loses!")
        pure g
      else pure g

/-- Python `PokemonGame._check_victory()`: scan the players dict in insertion
order (player one, then player two). -/
def PokemonGame.checkVictory (g : PokemonGame) : Option Turn :=
  if g.player1.prizes.isEmpty then some .playerOne
  else if g.player1.active_pokemon.isNone && !g.player1.has_pokemon_in_hand then
    some Turn.playerOne.opposite
  else if g.player2.prizes.isEmpty then some .playerTwo
  else if g.player2.active_pokemon.isNone && !g.player2.has_pokemon_in_hand then
    some Turn.playerTwo.opposite
  else none

/-- Python `PokemonGame.step()`: play a single turn, returning the winner (if
the game ended) and the updated controller. -/
def PokemonGame.step (g : PokemonGame) :
    Except GameError (Option Turn × PokemonGame) := do
  let active_turn := g.turn
  let player := g.playerOf active_turn
  let g := { g with turn_count := g.turn_count + 1 }
  let g := g.addLog ("--- Turn " ++ toString g.turn_count ++ ": " ++
    player.name ++ " ---")
  let (drew, g) ← g.drawPhase active_turn
  if !drew then
    pure (some active_turn.opposite, g)
  else do
    let g ← g.attack active_turn
    let winner := g.checkVictory
    let g := g.recordSnapshot ("After turn " ++ toString g.turn_count)
      (some active_turn)
    let g := { g with turn := active_turn.opposite }
    pure (winner, g)

/-- The `while winner is None and self.turn_count < max_turns` loop of
`play`, with a fuel argument bounding the iteration count.  `step`
always increments `turn_count` by exactly 1, so with fuel
`max_turns + 1` (and `turn_count = 0` on entry, as after `setup`) the
fuel never runs out before the loop condition turns false. -/
def playLoop (max_turns : Nat) : Nat → PokemonGame →
    Except GameError (Option Turn × PokemonGame)
  | 0, g => .ok (none, g)
  | fuel + 1, g =>
    if g.turn_count < max_turns then
      match g.step with
      | .error e => .error e
      | .ok (some w, g) => .ok (some w, g)
      | .ok (none, g) => playLoop max_turns fuel g
    else .ok (none, g)

/-- Python `PokemonGame.play(max_turns=...)`, additionally returning the final
controller state (the Python method returns only the `GameResult`;
see `PokemonGame.play`). -/
def PokemonGame.playFull (shuffleFn : ShuffleFn) (max_turns : Nat)
    (g : PokemonGame) : Except GameError (GameResult × PokemonGame) := do
  let g ← g.setup shuffleFn
  let (winner, g) ← playLoop max_turns (max_turns + 1) g
  let g := match winner with
    | none => g.addLog "Game ended due to turn limit."
    | some w => g.addLog ("Winner: " ++ (g.playerOf w).name)
  let g := g.recordSnapshot "Game end" (some g.turn.opposite)
  pure ({ winner := winner, log := g.log, snapshots := g.snapshots }, g)

/-- Python `PokemonGame.play(max_turns=...)`: the result handed to the caller. -/
def PokemonGame.play (shuffleFn : ShuffleFn) (max_turns : Nat)
    (g : PokemonGame) : Except GameError GameResult :=
  (g.playFull shuffleFn max_turns).map Prod.fst

/-- Python `PokemonGame.clone()` (value-level part): copies of the players with
copied list state and the same active reference, carried-over turn,
turn counter and log, fresh (empty) snapshot history, fresh RNG.
Object-identity aspects are modelled separately (see `StoreModel`). -/
def PokemonGame.clone (g : PokemonGame) (freshRng : Nat) : PokemonGame :=
  { player1 := { g.player1 with deck := g.player1.deck.copy }
    player2 := { g.player2 with deck := g.player2.deck.copy }
    turn := g.turn
    turn_count := g.turn_count
    log := g.log
    snapshots := []
    rng := freshRng }

/-! ### Player state invariant (spec section 3)

The specified invariant on a `Player`, and the hand condition on
printed hit points under which `promote_from_hand` re-establishes it. -/

/-- Spec invariant: while `active_pokemon` is set,
`0 ≤ active_hp ≤ active_pokemon.hp`. -/
def HpInv (p : Player) : Prop :=
  ∀ pk, p.active_pokemon = some pk → 0 ≤ p.active_hp ∧ p.active_hp ≤ pk.hp

/-- Every Pokemon card in the hand has positive printed hit points
(the spec declares hit points a positive integer). -/
def HandHpPos (p : Player) : Prop :=
  ∀ pk, Card.pokemon pk ∈ p.hand → 0 < pk.hp

/-! ### Remote metadata client (`card_data.py`)

`PokemonCardClient.fetch` performs network I/O; it is modelled as an
abstract lookup function `fetch : Int → Option RemoteCard` where `none`
stands for a raised `URLError`/`ValueError` (the cases `fetch_range`
silently skips).  The per-client cache is semantically transparent for a
deterministic lookup and is not modelled. -/

/-- Python `card_data.RemoteCard`. -/
structure RemoteCard where
  card_id : Int
  name : String
  detail_url : String
  image_url : String
deriving DecidableEq, Repr

/-- The list `[start, start + 1, ...]` of the given length. -/
def intRangeLen : Int → Nat → List Int
  | _, 0 => []
  | start, n + 1 => start :: intRangeLen (start + 1) n

/-- Python `range(start, stop)` as a list of `Int`. -/
def pyRange (start stop : Int) : List Int :=
  intRangeLen start (stop - start).toNat

/-- Python `PokemonCardClient.fetch_range(start, end)`: reject `end < start`,
then iterate `range(start, end + 1)` collecting the successful fetches
and skipping the failing ones. -/
def fetch_range (fetch : Int → Option RemoteCard) (start stop : Int) :
    Except GameError (List RemoteCard) :=
  if stop < start then .error .rangeError
  else .ok ((pyRange start (stop + 1)).filterMap fetch)

/-! ### Object-identity model for `PokemonGame.clone`

`clone` copies the four list-valued containers of each player
(`deck.cards`, `hand`, `discard_pile`, `prizes`) into fresh list
objects while sharing the `Card` instances and the active-creature
reference.  To state aliasing facts we model Python's heap of list
objects explicitly: a `Store` maps list-object identifiers to their
contents, contents are lists of card-object identifiers (cards are
immutable, so a card *is* its identity), and players hold list-object
identifiers instead of inline lists. -/

namespace StoreModel

/-- The heap of list objects: contents indexed by object identifier,
plus the next fresh identifier. -/
structure Store where
  lists : Nat → List Nat
  nextId : Nat

/-- Reading a list object. -/
def Store.read (s : Store) (i : Nat) : List Nat := s.lists i

/-- In-place mutation of the list object `i` (any Python operation that
changes the contents of that one list). -/
def Store.write (s : Store) (i : Nat) (l : List Nat) : Store :=
  { s with lists := Function.update s.lists i l }

/-- Allocating a fresh list object with the given contents
(`list(...)` / `.copy()` in Python). -/
def Store.alloc (s : Store) (l : List Nat) : Nat × Store :=
  (s.nextId, { lists := Function.update s.lists s.nextId l,
               nextId := s.nextId + 1 })

/-- A player whose list-valued state lives in the store. -/
structure PlayerRef where
  name : String
  deck : Nat
  hand : Nat
  discard_pile : Nat
  prizes : Nat
  active_pokemon : Option Nat
  active_hp : Int

/-- The controller state relevant to `clone`, with players by reference.
The `random.Random` instance of the clone is fresh and unseeded and is
outside this aliasing model. -/
structure GameRef where
  player1 : PlayerRef
  player2 : PlayerRef
  turn : Turn
  turn_count : Nat
  log : List String
  snapshots : List String

/-- The per-player part of `clone`: `Deck(player.deck.cards.copy())`,
`list(player.hand)`, `list(player.discard_pile)`, `list(player.prizes)`
each allocate a fresh list object whose contents are read from the
heap as it stands at that statement; `name`, `active_pokemon` and
`active_hp` are passed through. -/
def clonePlayer (s : Store) (p : PlayerRef) : PlayerRef × Store :=
  let a1 := s.alloc (s.read p.deck)
  let a2 := a1.2.alloc (a1.2.read p.hand)
  let a3 := a2.2.alloc (a2.2.read p.discard_pile)
  let a4 := a3.2.alloc (a3.2.read p.prizes)
  ({ p with
      deck := a1.1, hand := a2.1, discard_pile := a3.1,
      prizes := a4.1 }, a4.2)

/-- Python `PokemonGame.clone()` over the store: clone both players (the dict
comprehension runs player one first), build a fresh controller
(`snapshots` empty), then carry over `turn`, `turn_count` and a copy of
`log`. -/
def cloneRef (g : GameRef) (s : Store) : GameRef × Store :=
  let c1 := clonePlayer s g.player1
  let c2 := clonePlayer c1.2 g.player2
  ({ player1 := c1.1, player2 := c2.1, turn := g.turn,
     turn_count := g.turn_count, log := g.log, snapshots := [] }, c2.2)

/-- The list-object identifiers owned by a game's two players. -/
def listIds (g : GameRef) : List Nat :=
  [g.player1.deck, g.player1.hand, g.player1.discard_pile, g.player1.prizes,
   g.player2.deck, g.player2.hand, g.player2.discard_pile, g.player2.prizes]

/-- Well-formedness: every owned list identifier has been allocated. -/
def WF (s : Store) (g : GameRef) : Prop :=
  ∀ i ∈ listIds g, i < s.nextId

end StoreModel

/-! ### Spec-side description of `_setup_player` (refinement target)

`setupPlayerSpec` follows the spec's words for the per-player setup:
shuffle, clear, the opening hand is the first 7 cards of the shuffled
deck, the prize pile the next 6, the first Pokemon of the opening hand
is promoted, and a player with no Pokemon in the opening hand is a
fatal no-starting-creature error. -/

/-- The spec's description of the per-player setup outcome. -/
def setupPlayerSpec (shuffleFn : ShuffleFn) (rng : Nat) (p : Player) :
    Except GameError (Player × Nat) :=
  let L := (shuffleFn rng p.deck.cards).1
  match promoteSplit (L.take 7) with
  | none => .error (.noStartingPokemon p.name)
  | some (pk, rest) =>
    .ok ({ name := p.name, deck := ⟨(L.drop 7).drop 6⟩, hand := rest,
           discard_pile := [], prizes := (L.drop 7).take 6,
           active_pokemon := some pk, active_hp := pk.hp },
         (shuffleFn rng p.deck.cards).2)

/-- Player one's opening hand: the first 7 cards of the shuffled deck. -/
def openingHandOne (shuffleFn : ShuffleFn) (g : PokemonGame) : List Card :=
  ((shuffleFn g.rng g.player1.deck.cards).1).take 7

/-- The RNG state after player one's shuffle. -/
def rngAfterOne (shuffleFn : ShuffleFn) (g : PokemonGame) : Nat :=
  (shuffleFn g.rng g.player1.deck.cards).2

/-- Player two's opening hand (its shuffle consumes the RNG state left
by player one's shuffle). -/
def openingHandTwo (shuffleFn : ShuffleFn) (g : PokemonGame) : List Card :=
  ((shuffleFn (rngAfterOne shuffleFn g) g.player2.deck.cards).1).take 7

/-! ### Concrete instances used by witnesses and counterexamples -/

/-- A sample attack. -/
def hitAttack : Attack := { name := "Hit", damage := 30 }

/-- A sample Pokemon card. -/
def pikaCard : PokemonCard := { name := "Pika", hp := 60, attacks := [hitAttack] }

/-- A sample energy card. -/
def energySample : Card := .energy "Water" "water"

/-- A sample trainer card. -/
def trainerSample : Card := .trainer "Potion" "heal"

/-- A two-card deck. -/
def deckSample : Deck := ⟨[energySample, trainerSample]⟩

/-- A player with an active Pokemon. -/
def playerActive : Player :=
  { name := "Ann", deck := deckSample, hand := [Card.pokemon pikaCard],
    prizes := [energySample], active_pokemon := some pikaCard, active_hp := 60 }

/-- A player whose deck is empty. -/
def playerDeckedOut : Player :=
  { name := "Dan", deck := ⟨[]⟩, prizes := [energySample],
    active_pokemon := some pikaCard, active_hp := 60 }

/-- A game in which the active player (player one) cannot draw. -/
def gameDeckedOut : PokemonGame := PokemonGame.init playerDeckedOut playerActive 0

/-- The identity shuffle oracle (a legitimate instantiation: every
claim about the controller is quantified over the shuffle oracle). -/
def idShuffle : ShuffleFn := fun s l => (l, s)

/-- A 13-card all-Pokemon deck: setup consumes it entirely. -/
def deckMono : Deck := ⟨List.replicate 13 (Card.pokemon pikaCard)⟩

/-- A 13-card deck with no Pokemon at all. -/
def deckEnergyOnly : Deck := ⟨List.replicate 13 energySample⟩

/-- A match where player one decks out on the very first turn. -/
def gameMono : PokemonGame :=
  PokemonGame.init { name := "Alice", deck := deckMono }
    { name := "Bob", deck := deckMono } 0

/-- A match where player one's opening hand cannot contain a Pokemon. -/
def gameNoPoke : PokemonGame :=
  PokemonGame.init { name := "Alice", deck := deckEnergyOnly }
    { name := "Bob", deck := deckMono } 0

/-- Players and a game constructed from names, card sequences and a
seed state, as a caller of the library would (`Player(name, deck)`;
`PokemonGame(p1, p2, seed=s)`). -/
def mkMatch (n1 : String) (c1 : List Card) (n2 : String) (c2 : List Card)
    (seedState : Nat) : PokemonGame :=
  PokemonGame.init { name := n1, deck := ⟨c1⟩ } { name := n2, deck := ⟨c2⟩ }
    seedState

/-- A sample store for the aliasing witness: identifiers 0 through 7
allocated, holding card identifiers `[40 + i]`. -/
def storeSample : StoreModel.Store :=
  { lists := fun i => if i < 8 then [40 + i] else [], nextId := 8 }

/-- A sample by-reference game owning list objects 0 through 7. -/
def gameRefSample : StoreModel.GameRef :=
  { player1 := { name := "Ann", deck := 0, hand := 1, discard_pile := 2,
                 prizes := 3, active_pokemon := some 99, active_hp := 60 }
    player2 := { name := "Dan", deck := 4, hand := 5, discard_pile := 6,
                 prizes := 7, active_pokemon := none, active_hp := 0 }
    turn := .playerTwo, turn_count := 3, log := ["x"], snapshots := [] }

/-- A total lookup for the remote-client counterexample: every
identifier resolves, to a card carrying that identifier. -/
def fetchAll : Int → Option RemoteCard :=
  fun i => some { card_id := i, name := "c", detail_url := "d", image_url := "i" }

/-! ## Theorems -/

section Helpers

/-- Do-notation `bind` on our error monad, reduced on a success. -/
theorem bind_ok_arg {α β : Type} (a : α) (f : α → Except GameError β) :
    (Except.ok a >>= f) = f a := rfl

/-- Do-notation `bind` on our error monad, reduced on an error. -/
theorem bind_error_arg {α β : Type} (e : GameError)
    (f : α → Except GameError β) :
    ((Except.error e : Except GameError α) >>= f) = Except.error e := rfl

/-- The `pure` of our error monad is `.ok`. -/
theorem pure_eq_ok {α : Type} (a : α) :
    (pure a : Except GameError α) = Except.ok a := rfl

/-- Inversion for a successful do-notation `bind`. -/
theorem bind_eq_ok_iff {α β : Type} {x : Except GameError α}
    {f : α → Except GameError β} {b : β} :
    (x >>= f) = .ok b ↔ ∃ a, x = .ok a ∧ f a = .ok b := by
  cases x with
  | error e => simp [bind_error_arg]
  | ok a => simp [bind_ok_arg]

end Helpers

/-- C2: for `0 ≤ n ≤ |D|`, `Deck.draw n` succeeds and returns the first
`n` cards in order, leaving the remaining `|D| - n` cards in their
original relative order; `draw 0` returns `[]` and the unchanged deck;
`n` beyond the deck size fails with the insufficient-cards error and
negative `n` with the invalid-argument error (an error returns no new
deck state, so the deck is unmutated). -/
theorem deck_draw_spec (d : Deck) (n : Int) :
    (0 ≤ n → n ≤ (d.cards.length : Int) →
      d.draw n = .ok (d.cards.take n.toNat, ⟨d.cards.drop n.toNat⟩) ∧
      (d.cards.take n.toNat).length = n.toNat ∧
      (d.cards.drop n.toNat).length = d.cards.length - n.toNat ∧
      d.cards.take n.toNat ++ d.cards.drop n.toNat = d.cards) ∧
    (d.draw 0 = .ok ([], d)) ∧
    ((d.cards.length : Int) < n → d.draw n = .error .insufficientCards) ∧
    (n < 0 → d.draw n = .error .invalidArgument) := by
  refine ⟨?_, ?_, ?_, ?_⟩
  · intro h0 hn
    unfold Deck.draw
    rw [if_neg (by omega)]
    by_cases hz : n = 0
    · subst hz
      simp
    · rw [if_neg hz, if_neg (by omega)]
      refine ⟨rfl, ?_, ?_, List.take_append_drop _ _⟩
      · rw [List.length_take]
        omega
      · rw [List.length_drop]
  · unfold Deck.draw
    simp
  · intro h
    unfold Deck.draw
    rw [if_neg (by omega), if_neg (by omega), if_pos h]
  · intro h
    unfold Deck.draw
    rw [if_pos h]

/-- Witness for C2 on a concrete two-card deck. -/
theorem deck_draw_spec_witness :
    deckSample.draw 1 = .ok ([energySample], ⟨[trainerSample]⟩) ∧
    deckSample.draw 0 = .ok ([], deckSample) ∧
    deckSample.draw 5 = .error .insufficientCards ∧
    deckSample.draw (-1) = .error .invalidArgument := by
  refine ⟨?_, (deck_draw_spec deckSample 0).2.1,
    (deck_draw_spec deckSample 5).2.2.1 (by decide),
    (deck_draw_spec deckSample (-1)).2.2.2 (by decide)⟩
  have h := ((deck_draw_spec deckSample 1).1 (by decide) (by decide)).1
  simpa [deckSample] using h

/-- C3: with an active Pokemon, `damage_active amount` sets the current
hit points to the old value minus `amount`, floored at 0 (never below
0), and returns `true` exactly when the result is 0; with no active
Pokemon it fails with the no-active-creature error. -/
theorem damage_active_spec (p : Player) (amount : Int) :
    (∀ pk, p.active_pokemon = some pk →
      p.damage_active amount =
        .ok ((max (p.active_hp - amount) 0 == 0),
             { p with active_hp := max (p.active_hp - amount) 0 }) ∧
      0 ≤ max (p.active_hp - amount) 0 ∧
      ((max (p.active_hp - amount) 0 == 0) = true ↔
        max (p.active_hp - amount) 0 = 0)) ∧
    (p.active_pokemon = none →
      p.damage_active amount = .error .noActivePokemon) := by
  constructor
  · intro pk hpk
    unfold Player.damage_active
    rw [hpk]
    exact ⟨rfl, le_max_right _ _, beq_iff_eq⟩
  · intro hnone
    unfold Player.damage_active
    rw [hnone]

/-- Witness for C3 on a concrete player with 60 hit points taking 30
damage, and on a player without an active Pokemon. -/
theorem damage_active_spec_witness :
    playerActive.damage_active 30 =
      .ok (false, { playerActive with active_hp := 30 }) ∧
    ({ playerActive with active_pokemon := none } : Player).damage_active 30 =
      .error .noActivePokemon := by
  constructor
  · have h := ((damage_active_spec playerActive 30).1 pikaCard rfl).1
    simpa [playerActive] using h
  · exact (damage_active_spec { playerActive with active_pokemon := none } 30).2 rfl

/-- The card promoted by `promote_from_hand` really came from the hand. -/
theorem promoteSplit_mem : ∀ {l : List Card} {pk : PokemonCard} {rest : List Card},
    promoteSplit l = some (pk, rest) → Card.pokemon pk ∈ l := by
  intro l
  induction l with
  | nil => intro pk rest h; simp [promoteSplit] at h
  | cons c tl ih =>
    intro pk rest h
    cases c with
    | pokemon q =>
      simp [promoteSplit] at h
      rw [← h.1]
      exact List.mem_cons_self _ _
    | energy a b =>
      unfold promoteSplit at h
      cases hs : promoteSplit tl with
      | none => rw [hs] at h; simp at h
      | some x =>
        obtain ⟨pk2, r2⟩ := x
        rw [hs] at h
        simp at h
        obtain ⟨h1, h2⟩ := h
        exact List.mem_cons_of_mem _ (h1 ▸ ih hs)
    | trainer a b =>
      unfold promoteSplit at h
      cases hs : promoteSplit tl with
      | none => rw [hs] at h; simp at h
      | some x =>
        obtain ⟨pk2, r2⟩ := x
        rw [hs] at h
        simp at h
        obtain ⟨h1, h2⟩ := h
        exact List.mem_cons_of_mem _ (h1 ▸ ih hs)

/-- C7: starting from a player satisfying the hit-point invariant whose
hand holds only positive-hit-point Pokemon cards, every `Player`
operation — `draw`, `setup_prizes`, `take_prize`, `promote_from_hand`,
`damage_active` with nonnegative amount, `discard_active` — preserves
the invariant `0 ≤ active_hp ≤ active_pokemon.hp` whenever
`active_pokemon` is set. -/
theorem player_ops_preserve_hp_inv (p : Player) (hInv : HpInv p)
    (hHand : HandHpPos p) :
    (∀ n cs q, p.draw n = .ok (cs, q) → HpInv q) ∧
    (∀ n q, p.setup_prizes n = .ok q → HpInv q) ∧
    HpInv (p.take_prize).2 ∧
    HpInv (p.promote_from_hand).2 ∧
    (∀ amount b q, 0 ≤ amount → p.damage_active amount = .ok (b, q) → HpInv q) ∧
    HpInv p.discard_active := by
  refine ⟨?_, ?_, ?_, ?_, ?_, ?_⟩
  · intro n cs q h
    unfold Player.draw at h
    cases hd : p.deck.draw n with
    | error e => rw [hd, bind_error_arg] at h; simp at h
    | ok a =>
      obtain ⟨cs0, d0⟩ := a
      rw [hd, bind_ok_arg] at h
      simp only [pure_eq_ok, Except.ok.injEq, Prod.mk.injEq] at h
      obtain ⟨h1, h2⟩ := h
      subst h2
      intro pk hpk
      exact hInv pk hpk
  · intro n q h
    unfold Player.setup_prizes at h
    cases hd : p.deck.draw n with
    | error e => rw [hd, bind_error_arg] at h; simp at h
    | ok a =>
      obtain ⟨cs0, d0⟩ := a
      rw [hd, bind_ok_arg] at h
      simp only [pure_eq_ok, Except.ok.injEq] at h
      subst h
      intro pk hpk
      exact hInv pk hpk
  · have hfix : (p.take_prize).2.active_pokemon = p.active_pokemon ∧
        (p.take_prize).2.active_hp = p.active_hp := by
      unfold Player.take_prize
      cases p.prizes <;> simp
    intro pk hpk
    rw [hfix.1] at hpk
    rw [hfix.2]
    exact hInv pk hpk
  · intro pk hpk
    unfold Player.promote_from_hand at hpk ⊢
    cases hs : promoteSplit p.hand with
    | none =>
      rw [hs] at hpk
      exact hInv pk hpk
    | some x =>
      obtain ⟨q, rest⟩ := x
      rw [hs] at hpk
      have hq : q = pk := by simpa using hpk
      subst hq
      have hpos := hHand q (promoteSplit_mem hs)
      exact ⟨le_of_lt hpos, le_refl _⟩
  · intro amount b q ha h
    unfold Player.damage_active at h
    cases hpa : p.active_pokemon with
    | none =>
      rw [hpa] at h
      simp at h
    | some pk =>
      rw [hpa] at h
      simp only [Except.ok.injEq, Prod.mk.injEq] at h
      obtain ⟨h1, h2⟩ := h
      subst h2
      intro pk2 hpk2
      have hpk2' : pk = pk2 := by simpa using hpk2
      subst hpk2'
      have hb := hInv pk hpa
      refine ⟨le_max_right _ _, max_le ?_ ?_⟩
      · omega
      · omega
  · intro pk hpk
    unfold Player.discard_active at hpk ⊢
    cases hpa : p.active_pokemon with
    | none =>
      rw [hpa] at hpk
      exact hInv pk hpk
    | some qq =>
      rw [hpa] at hpk
      simp at hpk

/-- Witness for C7 on a concrete player state. -/
theorem player_ops_preserve_hp_inv_witness :
    (∀ n cs q, playerActive.draw n = .ok (cs, q) → HpInv q) ∧
    (∀ n q, playerActive.setup_prizes n = .ok q → HpInv q) ∧
    HpInv (playerActive.take_prize).2 ∧
    HpInv (playerActive.promote_from_hand).2 ∧
    (∀ amount b q, 0 ≤ amount →
      playerActive.damage_active amount = .ok (b, q) → HpInv q) ∧
    HpInv playerActive.discard_active := by
  refine player_ops_preserve_hp_inv playerActive ?_ ?_
  · intro pk hpk
    have : pikaCard = pk := by
      simpa [playerActive] using hpk
    rw [← this]
    exact ⟨by decide, by decide⟩
  · intro pk hpk
    have : Card.pokemon pk = Card.pokemon pikaCard := by
      simpa [playerActive] using hpk
    have hEq : pk = pikaCard := by
      injection this
    rw [hEq]
    decide

/-- Computation of `step` when the active player's deck is empty: the
turn header and deck-out lines are logged, the "Deck out" snapshot is
recorded, the turn counter advances, the active-turn field and both
players are untouched, and the opponent is returned as winner. -/
theorem step_deck_out_eq (g : PokemonGame)
    (h : (g.playerOf g.turn).deck.cards = []) :
    g.step = .ok (some g.turn.opposite,
      { g with
        turn_count := g.turn_count + 1,
        log := g.log ++
          ["--- Turn " ++ toString (g.turn_count + 1) ++ ": " ++
             (g.playerOf g.turn).name ++ " ---",
           (g.playerOf g.turn).name ++ " cannot draw and loses by deck out."],
        snapshots := g.snapshots ++
          [{ active_turn := g.turn, turn_count := g.turn_count + 1,
             description := "Deck out",
             playerOneView := snapshotPlayer g.player1,
             playerTwoView := snapshotPlayer g.player2 }] }) := by
  obtain ⟨p1, p2, t, tc, lg, sn, rng⟩ := g
  cases t <;>
    simp_all [PokemonGame.step, PokemonGame.drawPhase, PokemonGame.playerOf,
      PokemonGame.addLog, PokemonGame.recordSnapshot, bind_ok_arg, pure_eq_ok]

/-- C1: whenever the active player's deck is empty, `step` logs the
deck-out loss line, records a snapshot described "Deck out", and
returns the active player's opponent as the winner — for every game
state, hence regardless of hands, prizes or active creatures. -/
theorem step_deck_out_result (g : PokemonGame)
    (h : (g.playerOf g.turn).deck.cards = []) :
    ∃ g2, g.step = .ok (some g.turn.opposite, g2) ∧
      g2.log = g.log ++
        ["--- Turn " ++ toString (g.turn_count + 1) ++ ": " ++
           (g.playerOf g.turn).name ++ " ---",
         (g.playerOf g.turn).name ++ " cannot draw and loses by deck out."] ∧
      g2.snapshots = g.snapshots ++
        [{ active_turn := g.turn, turn_count := g.turn_count + 1,
           description := "Deck out",
           playerOneView := snapshotPlayer g.player1,
           playerTwoView := snapshotPlayer g.player2 }] :=
  ⟨_, step_deck_out_eq g h, rfl, rfl⟩

/-- Witness for C1 on a concrete decked-out game. -/
theorem step_deck_out_result_witness :
    ∃ g2, gameDeckedOut.step =
        .ok (some gameDeckedOut.turn.opposite, g2) ∧
      g2.log = gameDeckedOut.log ++
        ["--- Turn " ++ toString (gameDeckedOut.turn_count + 1) ++ ": " ++
           (gameDeckedOut.playerOf gameDeckedOut.turn).name ++ " ---",
         (gameDeckedOut.playerOf gameDeckedOut.turn).name ++
           " cannot draw and loses by deck out."] ∧
      g2.snapshots = gameDeckedOut.snapshots ++
        [{ active_turn := gameDeckedOut.turn,
           turn_count := gameDeckedOut.turn_count + 1,
           description := "Deck out",
           playerOneView := snapshotPlayer gameDeckedOut.player1,
           playerTwoView := snapshotPlayer gameDeckedOut.player2 }] :=
  step_deck_out_result gameDeckedOut rfl

/-- C10: in the deck-out case `step` leaves the active-turn field
unchanged (unlike the normal path, which flips it), still increments
the turn counter by exactly 1, and appends exactly one snapshot — the
"Deck out" one, with no "After turn N" snapshot for that step. -/
theorem step_deck_out_frame (g : PokemonGame)
    (h : (g.playerOf g.turn).deck.cards = []) :
    ∃ g2, g.step = .ok (some g.turn.opposite, g2) ∧
      g2.turn = g.turn ∧
      g2.turn_count = g.turn_count + 1 ∧
      g2.snapshots = g.snapshots ++
        [{ active_turn := g.turn, turn_count := g.turn_count + 1,
           description := "Deck out",
           playerOneView := snapshotPlayer g.player1,
           playerTwoView := snapshotPlayer g.player2 }] :=
  ⟨_, step_deck_out_eq g h, rfl, rfl, rfl⟩

/-- Witness for C10 on a concrete decked-out game. -/
theorem step_deck_out_frame_witness :
    ∃ g2, gameDeckedOut.step =
        .ok (some gameDeckedOut.turn.opposite, g2) ∧
      g2.turn = gameDeckedOut.turn ∧
      g2.turn_count = gameDeckedOut.turn_count + 1 ∧
      g2.snapshots = gameDeckedOut.snapshots ++
        [{ active_turn := gameDeckedOut.turn,
           turn_count := gameDeckedOut.turn_count + 1,
           description := "Deck out",
           playerOneView := snapshotPlayer gameDeckedOut.player1,
           playerTwoView := snapshotPlayer gameDeckedOut.player2 }] :=
  step_deck_out_frame gameDeckedOut rfl

/-- C4: two games constructed from equal player names, equal deck card
sequences and the same seed state, run under the same shuffle oracle
and turn ceiling, produce identical results — in particular identical
winners, identical log line sequences and identical snapshot
sequences.  (The embedding is a pure function of these inputs, exactly
because the engine draws on no source of nondeterminism other than the
seeded PRNG, which the shuffle oracle models.) -/
theorem play_deterministic (shuffleFn : ShuffleFn) (maxT : Nat)
    (n1 n2 : String) (c1 c2 : List Card) (seedState : Nat) :
    (mkMatch n1 c1 n2 c2 seedState).play shuffleFn maxT =
      (mkMatch n1 c1 n2 c2 seedState).play shuffleFn maxT ∧
    ((mkMatch n1 c1 n2 c2 seedState).play shuffleFn maxT).map GameResult.winner =
      ((mkMatch n1 c1 n2 c2 seedState).play shuffleFn maxT).map GameResult.winner ∧
    ((mkMatch n1 c1 n2 c2 seedState).play shuffleFn maxT).map GameResult.log =
      ((mkMatch n1 c1 n2 c2 seedState).play shuffleFn maxT).map GameResult.log ∧
    ((mkMatch n1 c1 n2 c2 seedState).play shuffleFn maxT).map GameResult.snapshots =
      ((mkMatch n1 c1 n2 c2 seedState).play shuffleFn maxT).map GameResult.snapshots :=
  ⟨rfl, rfl, rfl, rfl⟩

/-- Membership in the integer range list. -/
theorem mem_intRangeLen : ∀ (n : Nat) (s i : Int),
    i ∈ intRangeLen s n ↔ s ≤ i ∧ i < s + n := by
  intro n
  induction n with
  | zero =>
    intro s i
    simp only [intRangeLen, List.not_mem_nil, false_iff]
    push_cast
    omega
  | succ m ih =>
    intro s i
    simp only [intRangeLen, List.mem_cons, ih]
    push_cast
    omega

/-- The integer range list is strictly ascending. -/
theorem pairwise_intRangeLen : ∀ (n : Nat) (s : Int),
    (intRangeLen s n).Pairwise (fun a b => a < b) := by
  intro n
  induction n with
  | zero => intro s; simp [intRangeLen]
  | succ m ih =>
    intro s
    rw [intRangeLen, List.pairwise_cons]
    refine ⟨?_, ih (s + 1)⟩
    intro b hb
    rw [mem_intRangeLen] at hb
    omega

/-- Successful fetches from a strictly ascending identifier list are
strictly ascending in their identifiers. -/
theorem pairwise_card_id_filterMap (fetch : Int → Option RemoteCard)
    (hid : ∀ i c, fetch i = some c → c.card_id = i) :
    ∀ l : List Int, l.Pairwise (fun a b => a < b) →
      (l.filterMap fetch).Pairwise (fun a b => a.card_id < b.card_id) := by
  intro l
  induction l with
  | nil => intro _; simp
  | cons x tl ih =>
    intro hp
    rw [List.pairwise_cons] at hp
    obtain ⟨hx, htl⟩ := hp
    simp only [List.filterMap_cons]
    cases hf : fetch x with
    | none => exact ih htl
    | some c =>
      rw [List.pairwise_cons]
      refine ⟨?_, ih htl⟩
      intro b hb
      rw [List.mem_filterMap] at hb
      obtain ⟨i, hi, hfi⟩ := hb
      have h1 := hid x c hf
      have h2 := hid i b hfi
      have h3 := hx i hi
      omega

/-- Counterexample to C9: `fetch_range` treats its bounds inclusively,
not as a half-open range.  With a lookup on which every identifier
resolves, `fetch_range 0 0` returns the card with identifier 0, yet the
half-open range from 0 to 0 is empty (`¬ 0 < 0`), so the result is not
the set of successfully resolved identifiers of that half-open range. -/
theorem fetch_range_halfopen_counterexample :
    fetch_range fetchAll 0 0 =
      .ok [{ card_id := 0, name := "c", detail_url := "d", image_url := "i" }] ∧
    ¬ ((0 : Int) ≤ 0 ∧ (0 : Int) < 0) := by
  constructor
  · rfl
  · decide

/-- C9 (amended): for `start ≤ end`, `fetch_range start end` returns
exactly the successfully resolved cards of the *inclusive* range
`[start, end]`, in ascending identifier order, silently skipping
failing identifiers; for `end < start` it fails with an
invalid-argument error.  (`hid`: the client's `fetch` always stamps the
requested identifier on the card it returns.) -/
theorem fetch_range_spec (fetch : Int → Option RemoteCard) (start stop : Int)
    (hid : ∀ i c, fetch i = some c → c.card_id = i) :
    (start ≤ stop →
      fetch_range fetch start stop =
        .ok ((pyRange start (stop + 1)).filterMap fetch) ∧
      (∀ c ∈ (pyRange start (stop + 1)).filterMap fetch,
        start ≤ c.card_id ∧ c.card_id ≤ stop) ∧
      ((pyRange start (stop + 1)).filterMap fetch).Pairwise
        (fun a b => a.card_id < b.card_id)) ∧
    (stop < start → fetch_range fetch start stop = .error .rangeError) := by
  refine ⟨?_, ?_⟩
  · intro hle
    refine ⟨?_, ?_, ?_⟩
    · unfold fetch_range
      rw [if_neg (by omega)]
    · intro c hc
      rw [List.mem_filterMap] at hc
      obtain ⟨i, hi, hf⟩ := hc
      rw [pyRange, mem_intRangeLen] at hi
      have hci := hid i c hf
      omega
    · exact pairwise_card_id_filterMap fetch hid _ (pairwise_intRangeLen _ _)
  · intro hlt
    unfold fetch_range
    rw [if_pos hlt]

/-- Witness for C9 on the lookup that resolves every identifier. -/
theorem fetch_range_spec_witness :
    fetch_range fetchAll 100 102 =
      .ok ((pyRange 100 (102 + 1)).filterMap fetchAll) ∧
    fetch_range fetchAll 103 102 = .error .rangeError := by
  have h1 := fetch_range_spec fetchAll 100 102 (fun i c hc => by cases hc; rfl)
  have h2 := fetch_range_spec fetchAll 103 102 (fun i c hc => by cases hc; rfl)
  exact ⟨(h1.1 (by decide)).1, h2.2 (by decide)⟩

/-- Counterexample to C5: in the match `gameMono` (both 13-card decks,
so player one decks out on turn 1 and player two wins), the player who
would act next — the turn field the next `step` call would read — is
player one, but the final "Game end" snapshot is tagged with player
two: `play` tags it `self.turn.opposite()`, the *opposite* of the
player who would act next. -/
theorem play_game_end_tag_counterexample :
    ((gameMono.playFull idShuffle 5).map fun x => x.1.winner) =
      .ok (some Turn.playerTwo) ∧
    ((gameMono.playFull idShuffle 5).map fun x => x.2.turn) =
      .ok Turn.playerOne ∧
    ((gameMono.playFull idShuffle 5).map fun x =>
        (x.1.snapshots.map GameSnapshot.description).getLast?) =
      .ok (some "Game end") ∧
    ((gameMono.playFull idShuffle 5).map fun x =>
        (x.1.snapshots.map GameSnapshot.active_turn).getLast?) =
      .ok (some Turn.playerTwo) ∧
    Turn.playerTwo ≠ Turn.playerOne :=
  ⟨rfl, rfl, rfl, rfl, by decide⟩

/-- C5 (amended): every completed match ends with `play` appending a
final snapshot described "Game end" whose active-turn tag is the
*opposite* of the controller's final active-turn field (the opposite of
the player who would act next), and returning a `GameResult` carrying
the full log and the full snapshot sequence. -/
theorem play_result_spec (shuffleFn : ShuffleFn) (maxT : Nat)
    (g : PokemonGame) (res : GameResult) (gEnd : PokemonGame)
    (h : g.playFull shuffleFn maxT = .ok (res, gEnd)) :
    res.log = gEnd.log ∧
    res.snapshots = gEnd.snapshots ∧
    res.snapshots.getLast? = some
      { active_turn := gEnd.turn.opposite, turn_count := gEnd.turn_count,
        description := "Game end",
        playerOneView := snapshotPlayer gEnd.player1,
        playerTwoView := snapshotPlayer gEnd.player2 } := by
  unfold PokemonGame.playFull at h
  rw [bind_eq_ok_iff] at h
  obtain ⟨g1, hs, h⟩ := h
  rw [bind_eq_ok_iff] at h
  obtain ⟨⟨w, g2⟩, hl, h⟩ := h
  cases w <;>
  · simp only [pure_eq_ok, Except.ok.injEq, Prod.mk.injEq] at h
    obtain ⟨hres, hgEnd⟩ := h
    subst hgEnd
    subst hres
    refine ⟨rfl, rfl, ?_⟩
    simp [PokemonGame.recordSnapshot, PokemonGame.addLog,
      List.getLast?_append_cons]

/-- Witness for C5 on the concrete match `gameMono`. -/
theorem play_result_spec_witness :
    ∃ res gEnd, gameMono.playFull idShuffle 5 = .ok (res, gEnd) ∧
      res.log = gEnd.log ∧
      res.snapshots = gEnd.snapshots ∧
      res.snapshots.getLast? = some
        { active_turn := gEnd.turn.opposite, turn_count := gEnd.turn_count,
          description := "Game end",
          playerOneView := snapshotPlayer gEnd.player1,
          playerTwoView := snapshotPlayer gEnd.player2 } := by
  obtain ⟨res, gEnd, h⟩ :
      ∃ res gEnd, gameMono.playFull idShuffle 5 = .ok (res, gEnd) := ⟨_, _, rfl⟩
  exact ⟨res, gEnd, h, play_result_spec idShuffle 5 gameMono res gEnd h⟩

/-- Python `promote_from_hand` finds nothing exactly when the hand holds no
Pokemon card. -/
theorem promoteSplit_eq_none_iff : ∀ l : List Card,
    promoteSplit l = none ↔ l.any Card.isPokemon = false := by
  intro l
  induction l with
  | nil => simp [promoteSplit]
  | cons c tl ih =>
    cases c with
    | pokemon q => simp [promoteSplit, Card.isPokemon]
    | energy a b =>
      simp [promoteSplit, Card.isPokemon, Option.map_eq_none', ih]
    | trainer a b =>
      simp [promoteSplit, Card.isPokemon, Option.map_eq_none', ih]

/-- Python `Deck.draw` on a positive in-range count, in closed form. -/
theorem deck_draw_ok_of_le (d : Deck) (n : Int) (h0 : 0 < n)
    (hn : n ≤ (d.cards.length : Int)) :
    d.draw n = .ok (d.cards.take n.toNat, ⟨d.cards.drop n.toNat⟩) := by
  unfold Deck.draw
  rw [if_neg (by omega), if_neg (by omega), if_neg (by omega)]

/-- The per-player setup agrees with the spec-side description whenever
the shuffled deck has at least the 13 cards that setup consumes. -/
theorem setupPlayer_eq (shuffleFn : ShuffleFn) (rng : Nat) (p : Player)
    (hlen : 13 ≤ ((shuffleFn rng p.deck.cards).1).length) :
    setupPlayer shuffleFn rng p = setupPlayerSpec shuffleFn rng p := by
  unfold setupPlayer setupPlayerSpec Player.draw Player.setup_prizes
  dsimp only
  rw [deck_draw_ok_of_le _ 7 (by norm_num) (by push_cast; omega)]
  simp only [bind_ok_arg, pure_eq_ok, List.nil_append, Int.toNat_ofNat]
  rw [deck_draw_ok_of_le _ 6 (by norm_num)
    (by simp only [List.length_drop]; push_cast; omega)]
  simp only [bind_ok_arg, pure_eq_ok, Int.toNat_ofNat]
  unfold Player.promote_from_hand
  cases hps : promoteSplit (((shuffleFn rng p.deck.cards).1).take 7) <;>
    simp [hps]

/-- Case analysis of `setup` (both shuffled decks large enough): player
one's missing starter fails setup with player one's name, player two's
missing starter fails it with player two's name, and when both opening
hands contain a Pokemon, setup succeeds. -/
theorem setup_eq_cases (shuffleFn : ShuffleFn) (g : PokemonGame)
    (hlen1 : 13 ≤ ((shuffleFn g.rng g.player1.deck.cards).1).length)
    (hlen2 : 13 ≤ ((shuffleFn ((shuffleFn g.rng g.player1.deck.cards).2)
      g.player2.deck.cards).1).length) :
    (promoteSplit (openingHandOne shuffleFn g) = none →
      g.setup shuffleFn = .error (.noStartingPokemon g.player1.name)) ∧
    (∀ x, promoteSplit (openingHandOne shuffleFn g) = some x →
      promoteSplit (openingHandTwo shuffleFn g) = none →
      g.setup shuffleFn = .error (.noStartingPokemon g.player2.name)) ∧
    (∀ x y, promoteSplit (openingHandOne shuffleFn g) = some x →
      promoteSplit (openingHandTwo shuffleFn g) = some y →
      ∃ g2, g.setup shuffleFn = .ok g2) := by
  have e1 := setupPlayer_eq shuffleFn g.rng g.player1 hlen1
  have e2 := setupPlayer_eq shuffleFn ((shuffleFn g.rng g.player1.deck.cards).2)
    g.player2 hlen2
  unfold openingHandOne openingHandTwo rngAfterOne
  refine ⟨?_, ?_, ?_⟩
  · intro h1
    unfold PokemonGame.setup
    rw [e1]
    unfold setupPlayerSpec
    dsimp only
    rw [h1, bind_error_arg]
  · intro x h1 h2
    obtain ⟨pk1, rest1⟩ := x
    unfold PokemonGame.setup
    rw [e1]
    unfold setupPlayerSpec
    dsimp only
    rw [h1]
    rw [bind_ok_arg]
    dsimp only
    rw [e2]
    unfold setupPlayerSpec
    dsimp only
    rw [h2, bind_error_arg]
  · intro x y h1 h2
    obtain ⟨pk1, rest1⟩ := x
    obtain ⟨pk2, rest2⟩ := y
    unfold PokemonGame.setup
    rw [e1]
    unfold setupPlayerSpec
    dsimp only
    rw [h1, bind_ok_arg]
    dsimp only
    rw [e2]
    unfold setupPlayerSpec
    dsimp only
    rw [h2, bind_ok_arg]
    exact ⟨_, rfl⟩

/-- C6: with both shuffled decks holding the 13 cards setup consumes,
(i) each player's setup is exactly: shuffle with the threaded RNG
state, clear all piles and active state, opening hand = first 7 cards,
prizes = next 6, promote the first Pokemon of the opening hand;
(ii) `setup` fails with a no-starting-creature error exactly when some
player's 7-card opening hand holds no Pokemon card; (iii) with Pokemon
in both opening hands it succeeds; and (iv) a setup failure makes
`play` fail identically, before any turn — no partial result. -/
theorem setup_correct (shuffleFn : ShuffleFn) (g : PokemonGame) (maxT : Nat)
    (hlen1 : 13 ≤ ((shuffleFn g.rng g.player1.deck.cards).1).length)
    (hlen2 : 13 ≤ ((shuffleFn (rngAfterOne shuffleFn g)
      g.player2.deck.cards).1).length) :
    setupPlayer shuffleFn g.rng g.player1 =
      setupPlayerSpec shuffleFn g.rng g.player1 ∧
    setupPlayer shuffleFn (rngAfterOne shuffleFn g) g.player2 =
      setupPlayerSpec shuffleFn (rngAfterOne shuffleFn g) g.player2 ∧
    ((∃ nm, g.setup shuffleFn = .error (.noStartingPokemon nm)) ↔
      (openingHandOne shuffleFn g).any Card.isPokemon = false ∨
      (openingHandTwo shuffleFn g).any Card.isPokemon = false) ∧
    ((openingHandOne shuffleFn g).any Card.isPokemon = true →
      (openingHandTwo shuffleFn g).any Card.isPokemon = true →
      ∃ g2, g.setup shuffleFn = .ok g2) ∧
    (∀ e, g.setup shuffleFn = .error e →
      g.playFull shuffleFn maxT = .error e) := by
  obtain ⟨hc1, hc2, hc3⟩ := setup_eq_cases shuffleFn g hlen1 hlen2
  refine ⟨setupPlayer_eq _ _ _ hlen1, setupPlayer_eq _ _ _ hlen2, ?_, ?_, ?_⟩
  · constructor
    · rintro ⟨nm, hn⟩
      by_contra hcon
      push_neg at hcon
      obtain ⟨ha, hb⟩ := hcon
      simp only [ne_eq, Bool.not_eq_false] at ha hb
      have p1 : promoteSplit (openingHandOne shuffleFn g) ≠ none := by
        rw [Ne, promoteSplit_eq_none_iff]
        simp [ha]
      have p2 : promoteSplit (openingHandTwo shuffleFn g) ≠ none := by
        rw [Ne, promoteSplit_eq_none_iff]
        simp [hb]
      obtain ⟨x, hx⟩ := Option.ne_none_iff_exists'.mp p1
      obtain ⟨y, hy⟩ := Option.ne_none_iff_exists'.mp p2
      obtain ⟨g2, hg2⟩ := hc3 x y hx hy
      rw [hg2] at hn
      exact Except.noConfusion hn
    · intro hor
      cases hor with
      | inl ha =>
        exact ⟨g.player1.name, hc1 ((promoteSplit_eq_none_iff _).mpr ha)⟩
      | inr hb =>
        cases hps1 : promoteSplit (openingHandOne shuffleFn g) with
        | none => exact ⟨g.player1.name, hc1 hps1⟩
        | some x =>
          exact ⟨g.player2.name,
            hc2 x hps1 ((promoteSplit_eq_none_iff _).mpr hb)⟩
  · intro ha hb
    have p1 : promoteSplit (openingHandOne shuffleFn g) ≠ none := by
      rw [Ne, promoteSplit_eq_none_iff]
      simp [ha]
    have p2 : promoteSplit (openingHandTwo shuffleFn g) ≠ none := by
      rw [Ne, promoteSplit_eq_none_iff]
      simp [hb]
    obtain ⟨x, hx⟩ := Option.ne_none_iff_exists'.mp p1
    obtain ⟨y, hy⟩ := Option.ne_none_iff_exists'.mp p2
    exact hc3 x y hx hy
  · intro e he
    unfold PokemonGame.playFull
    rw [he, bind_error_arg]

/-- Witness for C6 on a match whose first player cannot open with a
Pokemon (an all-energy deck). -/
theorem setup_correct_witness :
    setupPlayer idShuffle gameNoPoke.rng gameNoPoke.player1 =
      setupPlayerSpec idShuffle gameNoPoke.rng gameNoPoke.player1 ∧
    setupPlayer idShuffle (rngAfterOne idShuffle gameNoPoke)
        gameNoPoke.player2 =
      setupPlayerSpec idShuffle (rngAfterOne idShuffle gameNoPoke)
        gameNoPoke.player2 ∧
    ((∃ nm, gameNoPoke.setup idShuffle = .error (.noStartingPokemon nm)) ↔
      (openingHandOne idShuffle gameNoPoke).any Card.isPokemon = false ∨
      (openingHandTwo idShuffle gameNoPoke).any Card.isPokemon = false) ∧
    ((openingHandOne idShuffle gameNoPoke).any Card.isPokemon = true →
      (openingHandTwo idShuffle gameNoPoke).any Card.isPokemon = true →
      ∃ g2, gameNoPoke.setup idShuffle = .ok g2) ∧
    (∀ e, gameNoPoke.setup idShuffle = .error e →
      gameNoPoke.playFull idShuffle 5 = .error e) :=
  setup_correct idShuffle gameNoPoke 5 (by decide) (by decide)

namespace StoreModel

/-- A fresh allocation returns the allocator's next identifier. -/
theorem Store.alloc_fst (s : Store) (l : List Nat) :
    (s.alloc l).1 = s.nextId := rfl

/-- Allocation bumps the next-identifier counter. -/
theorem Store.alloc_nextId (s : Store) (l : List Nat) :
    ((s.alloc l).2).nextId = s.nextId + 1 := rfl

/-- Allocation does not disturb any other list object. -/
theorem Store.read_alloc_ne (s : Store) (l : List Nat) (i : Nat)
    (h : i ≠ s.nextId) : ((s.alloc l).2).read i = s.read i := by
  simp [Store.alloc, Store.read, Function.update_noteq h]

/-- Reading a freshly allocated list object yields its contents. -/
theorem Store.read_alloc_at (s : Store) (l : List Nat) (i : Nat)
    (h : i = s.nextId) : ((s.alloc l).2).read i = l := by
  subst h
  simp [Store.alloc, Store.read]

/-- Writing one list object does not disturb any other list object. -/
theorem Store.read_write_ne (s : Store) (l : List Nat) (i j : Nat)
    (h : i ≠ j) : (s.write j l).read i = s.read i := by
  simp [Store.write, Store.read, Function.update_noteq h]

/-- The clone's eight list objects are the eight identifiers freshly
allocated past the store's frontier. -/
theorem listIds_cloneRef (g : GameRef) (s : Store) :
    listIds (cloneRef g s).1 =
      [s.nextId, s.nextId + 1, s.nextId + 1 + 1, s.nextId + 1 + 1 + 1,
       s.nextId + 1 + 1 + 1 + 1, s.nextId + 1 + 1 + 1 + 1 + 1,
       s.nextId + 1 + 1 + 1 + 1 + 1 + 1,
       s.nextId + 1 + 1 + 1 + 1 + 1 + 1 + 1] := rfl

/-- No clone-owned list object aliases an original-owned one. -/
theorem clone_ids_disjoint (g : GameRef) (s : Store) (hwf : WF s g) :
    ∀ i ∈ listIds g, ∀ j ∈ listIds (cloneRef g s).1, i ≠ j := by
  intro i hi j hj
  have hlt := hwf i hi
  rw [listIds_cloneRef] at hj
  simp only [List.mem_cons, List.not_mem_nil, or_false] at hj
  rcases hj with rfl | rfl | rfl | rfl | rfl | rfl | rfl | rfl <;> omega

/-- Cloning does not disturb any already-allocated list object. -/
theorem cloneRef_read_old (g : GameRef) (s : Store) (i : Nat)
    (hi : i < s.nextId) : ((cloneRef g s).2).read i = s.read i := by
  unfold cloneRef clonePlayer
  dsimp only
  rw [Store.read_alloc_ne, Store.read_alloc_ne, Store.read_alloc_ne,
    Store.read_alloc_ne, Store.read_alloc_ne, Store.read_alloc_ne,
    Store.read_alloc_ne, Store.read_alloc_ne]
  all_goals try simp only [Store.alloc_nextId]
  all_goals omega

/-- The clone's eight list objects hold, at clone time, exactly the
contents of the corresponding original list objects — the same card
identifiers, i.e. the identical card objects. -/
theorem cloneRef_read_new (g : GameRef) (s : Store) (hwf : WF s g) :
    (cloneRef g s).2.read (cloneRef g s).1.player1.deck =
        s.read g.player1.deck ∧
      (cloneRef g s).2.read (cloneRef g s).1.player1.hand =
        s.read g.player1.hand ∧
      (cloneRef g s).2.read (cloneRef g s).1.player1.discard_pile =
        s.read g.player1.discard_pile ∧
      (cloneRef g s).2.read (cloneRef g s).1.player1.prizes =
        s.read g.player1.prizes ∧
      (cloneRef g s).2.read (cloneRef g s).1.player2.deck =
        s.read g.player2.deck ∧
      (cloneRef g s).2.read (cloneRef g s).1.player2.hand =
        s.read g.player2.hand ∧
      (cloneRef g s).2.read (cloneRef g s).1.player2.discard_pile =
        s.read g.player2.discard_pile ∧
      (cloneRef g s).2.read (cloneRef g s).1.player2.prizes =
        s.read g.player2.prizes := by
  have k1 : g.player1.deck < s.nextId := hwf _ (by simp [listIds])
  have k2 : g.player1.hand < s.nextId := hwf _ (by simp [listIds])
  have k3 : g.player1.discard_pile < s.nextId := hwf _ (by simp [listIds])
  have k4 : g.player1.prizes < s.nextId := hwf _ (by simp [listIds])
  have k5 : g.player2.deck < s.nextId := hwf _ (by simp [listIds])
  have k6 : g.player2.hand < s.nextId := hwf _ (by simp [listIds])
  have k7 : g.player2.discard_pile < s.nextId := hwf _ (by simp [listIds])
  have k8 : g.player2.prizes < s.nextId := hwf _ (by simp [listIds])
  refine ⟨?_, ?_, ?_, ?_, ?_, ?_, ?_, ?_⟩
  · unfold cloneRef clonePlayer
    dsimp only
    simp only [Store.alloc_fst, Store.alloc_nextId]
    rw [Store.read_alloc_ne, Store.read_alloc_ne, Store.read_alloc_ne,
      Store.read_alloc_ne, Store.read_alloc_ne, Store.read_alloc_ne,
      Store.read_alloc_ne, Store.read_alloc_at]
    all_goals try simp only [Store.alloc_nextId]
    all_goals omega
  · unfold cloneRef clonePlayer
    dsimp only
    simp only [Store.alloc_fst, Store.alloc_nextId]
    rw [Store.read_alloc_ne, Store.read_alloc_ne, Store.read_alloc_ne,
      Store.read_alloc_ne, Store.read_alloc_ne, Store.read_alloc_ne,
      Store.read_alloc_at, Store.read_alloc_ne]
    all_goals try simp only [Store.alloc_nextId]
    all_goals omega
  · unfold cloneRef clonePlayer
    dsimp only
    simp only [Store.alloc_fst, Store.alloc_nextId]
    rw [Store.read_alloc_ne, Store.read_alloc_ne, Store.read_alloc_ne,
      Store.read_alloc_ne, Store.read_alloc_ne, Store.read_alloc_at,
      Store.read_alloc_ne, Store.read_alloc_ne]
    all_goals try simp only [Store.alloc_nextId]
    all_goals omega
  · unfold cloneRef clonePlayer
    dsimp only
    simp only [Store.alloc_fst, Store.alloc_nextId]
    rw [Store.read_alloc_ne, Store.read_alloc_ne, Store.read_alloc_ne,
      Store.read_alloc_ne, Store.read_alloc_at, Store.read_alloc_ne,
      Store.read_alloc_ne, Store.read_alloc_ne]
    all_goals try simp only [Store.alloc_nextId]
    all_goals omega
  · unfold cloneRef clonePlayer
    dsimp only
    simp only [Store.alloc_fst, Store.alloc_nextId]
    rw [Store.read_alloc_ne, Store.read_alloc_ne, Store.read_alloc_ne,
      Store.read_alloc_at, Store.read_alloc_ne, Store.read_alloc_ne,
      Store.read_alloc_ne, Store.read_alloc_ne]
    all_goals try simp only [Store.alloc_nextId]
    all_goals omega
  · unfold cloneRef clonePlayer
    dsimp only
    simp only [Store.alloc_fst, Store.alloc_nextId]
    rw [Store.read_alloc_ne, Store.read_alloc_ne, Store.read_alloc_at,
      Store.read_alloc_ne, Store.read_alloc_ne, Store.read_alloc_ne,
      Store.read_alloc_ne, Store.read_alloc_ne]
    all_goals try simp only [Store.alloc_nextId]
    all_goals omega
  · unfold cloneRef clonePlayer
    dsimp only
    simp only [Store.alloc_fst, Store.alloc_nextId]
    rw [Store.read_alloc_ne, Store.read_alloc_at, Store.read_alloc_ne,
      Store.read_alloc_ne, Store.read_alloc_ne, Store.read_alloc_ne,
      Store.read_alloc_ne, Store.read_alloc_ne]
    all_goals try simp only [Store.alloc_nextId]
    all_goals omega
  · unfold cloneRef clonePlayer
    dsimp only
    simp only [Store.alloc_fst, Store.alloc_nextId]
    rw [Store.read_alloc_at, Store.read_alloc_ne, Store.read_alloc_ne,
      Store.read_alloc_ne, Store.read_alloc_ne, Store.read_alloc_ne,
      Store.read_alloc_ne, Store.read_alloc_ne]
    all_goals try simp only [Store.alloc_nextId]
    all_goals omega

/-- C8: `clone` allocates fresh list objects for each player's deck,
hand, discard pile and prizes — none aliases an original list object,
so writing any clone-owned list leaves every original-owned list
unchanged and vice versa — while their contents at clone time are
equal element-wise (the same card objects), the active-creature
references are identical, and log, active turn and turn counter are
carried over. -/
theorem clone_aliasing (g : GameRef) (s : Store) (hwf : WF s g) :
    (∀ i ∈ listIds g, ∀ j ∈ listIds (cloneRef g s).1, i ≠ j) ∧
    ((cloneRef g s).2.read (cloneRef g s).1.player1.deck =
        s.read g.player1.deck ∧
      (cloneRef g s).2.read (cloneRef g s).1.player1.hand =
        s.read g.player1.hand ∧
      (cloneRef g s).2.read (cloneRef g s).1.player1.discard_pile =
        s.read g.player1.discard_pile ∧
      (cloneRef g s).2.read (cloneRef g s).1.player1.prizes =
        s.read g.player1.prizes ∧
      (cloneRef g s).2.read (cloneRef g s).1.player2.deck =
        s.read g.player2.deck ∧
      (cloneRef g s).2.read (cloneRef g s).1.player2.hand =
        s.read g.player2.hand ∧
      (cloneRef g s).2.read (cloneRef g s).1.player2.discard_pile =
        s.read g.player2.discard_pile ∧
      (cloneRef g s).2.read (cloneRef g s).1.player2.prizes =
        s.read g.player2.prizes) ∧
    (∀ i ∈ listIds g, (cloneRef g s).2.read i = s.read i) ∧
    (∀ j ∈ listIds (cloneRef g s).1, ∀ l, ∀ i ∈ listIds g,
      ((cloneRef g s).2.write j l).read i = (cloneRef g s).2.read i) ∧
    (∀ i ∈ listIds g, ∀ l, ∀ j ∈ listIds (cloneRef g s).1,
      ((cloneRef g s).2.write i l).read j = (cloneRef g s).2.read j) ∧
    (cloneRef g s).1.player1.active_pokemon = g.player1.active_pokemon ∧
    (cloneRef g s).1.player2.active_pokemon = g.player2.active_pokemon ∧
    (cloneRef g s).1.log = g.log ∧
    (cloneRef g s).1.turn = g.turn ∧
    (cloneRef g s).1.turn_count = g.turn_count := by
  refine ⟨clone_ids_disjoint g s hwf, cloneRef_read_new g s hwf,
    ?_, ?_, ?_, rfl, rfl, rfl, rfl, rfl⟩
  · intro i hi
    exact cloneRef_read_old g s i (hwf i hi)
  · intro j hj l i hi
    exact Store.read_write_ne _ l i j (clone_ids_disjoint g s hwf i hi j hj)
  · intro i hi l j hj
    exact Store.read_write_ne _ l j i
      (Ne.symm (clone_ids_disjoint g s hwf i hi j hj))

/-- Witness for C8 on a concrete store owning eight list objects. -/
theorem clone_aliasing_witness :
    (∀ i ∈ listIds gameRefSample,
      ∀ j ∈ listIds (cloneRef gameRefSample storeSample).1, i ≠ j) ∧
    ((cloneRef gameRefSample storeSample).2.read
        (cloneRef gameRefSample storeSample).1.player1.deck =
        storeSample.read gameRefSample.player1.deck ∧
      (cloneRef gameRefSample storeSample).2.read
        (cloneRef gameRefSample storeSample).1.player1.hand =
        storeSample.read gameRefSample.player1.hand ∧
      (cloneRef gameRefSample storeSample).2.read
        (cloneRef gameRefSample storeSample).1.player1.discard_pile =
        storeSample.read gameRefSample.player1.discard_pile ∧
      (cloneRef gameRefSample storeSample).2.read
        (cloneRef gameRefSample storeSample).1.player1.prizes =
        storeSample.read gameRefSample.player1.prizes ∧
      (cloneRef gameRefSample storeSample).2.read
        (cloneRef gameRefSample storeSample).1.player2.deck =
        storeSample.read gameRefSample.player2.deck ∧
      (cloneRef gameRefSample storeSample).2.read
        (cloneRef gameRefSample storeSample).1.player2.hand =
        storeSample.read gameRefSample.player2.hand ∧
      (cloneRef gameRefSample storeSample).2.read
        (cloneRef gameRefSample storeSample).1.player2.discard_pile =
        storeSample.read gameRefSample.player2.discard_pile ∧
      (cloneRef gameRefSample storeSample).2.read
        (cloneRef gameRefSample storeSample).1.player2.prizes =
        storeSample.read gameRefSample.player2.prizes) ∧
    (∀ i ∈ listIds gameRefSample,
      (cloneRef gameRefSample storeSample).2.read i = storeSample.read i) ∧
    (∀ j ∈ listIds (cloneRef gameRefSample storeSample).1, ∀ l,
      ∀ i ∈ listIds gameRefSample,
      ((cloneRef gameRefSample storeSample).2.write j l).read i =
        (cloneRef gameRefSample storeSample).2.read i) ∧
    (∀ i ∈ listIds gameRefSample, ∀ l,
      ∀ j ∈ listIds (cloneRef gameRefSample storeSample).1,
      ((cloneRef gameRefSample storeSample).2.write i l).read j =
        (cloneRef gameRefSample storeSample).2.read j) ∧
    (cloneRef gameRefSample storeSample).1.player1.active_pokemon =
      gameRefSample.player1.active_pokemon ∧
    (cloneRef gameRefSample storeSample).1.player2.active_pokemon =
      gameRefSample.player2.active_pokemon ∧
    (cloneRef gameRefSample storeSample).1.log = gameRefSample.log ∧
    (cloneRef gameRefSample storeSample).1.turn = gameRefSample.turn ∧
    (cloneRef gameRefSample storeSample).1.turn_count =
      gameRefSample.turn_count :=
  clone_aliasing gameRefSample storeSample (by
    show ∀ i ∈ listIds gameRefSample, i < storeSample.nextId
    decide)

end StoreModel

end PokeTCG
